import Mathlib

/-!
A verification development for a multi-tenant vehicle-rental management
application.  The definitions below are a shallow embedding of the
tenancy resolver, the record-access layer
(`AdminSide/services/firebaseService.js`), the trip-settlement
calculation (the `DriverStatusModal` completion handler), the driver
balance aggregation (`DriverBalanceScreen`), and the status-update email
dispatcher (`AdminSide/services/emailService.js`).

Conventions of the embedding:
- JavaScript numbers are modelled as `ℚ` (monetary amounts, fuel levels,
  timestamps in milliseconds) or `Int` (quantities); possibly-absent
  document fields are `Option` values, and the JavaScript `x ?? d` /
  `Number(x) || 0` coalescing patterns become `Option.getD`.
- The remote document store is a `DB` record of lists of documents; a
  Firestore query is a filter over the relevant list plus, where the
  source orders by a key, a sort.
- Fallible operations return `Except String α`, carrying the exact
  `Error` message thrown by the source; a state-changing operation
  returns the updated `DB`.  An `Except.error` result leaves the
  caller's store untouched.
-/

namespace RentalDen

/-- Reduction of a successful `Except` bind, used to unfold the
operation definitions in proofs. -/
theorem bind_ok {α β : Type} (a : α) (f : α → Except String β) :
    (Except.ok a >>= f) = f a := rfl

/-- Reduction of a failed `Except` bind: a thrown error propagates. -/
theorem bind_error {α β : Type} (e : String) (f : α → Except String β) :
    ((Except.error e : Except String α) >>= f) = .error e := rfl

/-- A client session: the authenticated user (if any), the process-wide
cached effective-owner (tenant) id set at login (`_effectiveOwnerId`),
and the cached role (`_role`), as in
`AdminSide/services/firebaseService.js`. -/
structure Session where
  currentUser : Option String
  cachedOwnerId : Option String
  role : String
deriving Repr, DecidableEq

/-- Embeds `requireUserId`: returns `auth.currentUser.uid`, throwing
`"User must be logged in"` when no user is authenticated. -/
def requireUserId (s : Session) : Except String String :=
  match s.currentUser with
  | some uid => .ok uid
  | none => .error "User must be logged in"

/-- Embeds `requireOwnerId = () => _effectiveOwnerId || requireUserId()`.
The empty string is falsy in JavaScript, so an empty cached id also
falls through to `requireUserId`. -/
def requireOwnerId (s : Session) : Except String String :=
  match s.cachedOwnerId with
  | some oid => if oid = "" then requireUserId s else .ok oid
  | none => requireUserId s

/-- Embeds `getRoleSync`. -/
def getRoleSync (s : Session) : String := s.role

/-- The per-tenant `system_settings/{ownerId}` document; both fields may
be absent from the stored document. -/
structure SystemSettings where
  fuel_price_per_liter : Option ℚ
  delay_fee_per_hour : Option ℚ
deriving Repr, DecidableEq

/-- Embeds `systemSettingsService.get()`: reads the settings document
keyed by the effective owner id and returns the default
`{fuel_price_per_liter: 0, delay_fee_per_hour: 0}` when the document
does not exist.  The settings store is the `system_settings` collection
as a list of `(document id, document)` pairs. -/
def systemSettingsGet (s : Session) (store : List (String × SystemSettings)) :
    Except String SystemSettings := do
  let ownerId ← requireOwnerId s
  match store.find? (fun kv => kv.1 == ownerId) with
  | none => .ok { fuel_price_per_liter := some 0, delay_fee_per_hour := some 0 }
  | some kv => .ok kv.2

/-- The fields the completion branch of `DriverStatusModal.handleSubmit`
submits when a trip ends (besides `end_time` and `driver_remarks`,
which are a wall-clock string and free text). -/
structure TripCompletion where
  status : String
  end_fuel : ℚ
  payment_at_end : ℚ
  fuel_charge : ℚ
  delay_fee : ℚ
  delay_hours : ℚ
deriving Repr, DecidableEq

/-- Embeds the completion branch of `DriverStatusModal.handleSubmit`.
`start_fuel` is the booking's stored start fuel (`Number(x) || 0`),
`endFuel` and `payment_at_end` the parsed form inputs,
`rental_end_date` the expected-return timestamp when the booking has
one and `actualReturn` the completion timestamp, both in milliseconds;
`(actualReturn - expectedReturn) / (1000 * 60 * 60)` converts the delay
to fractional hours.  Settings fields are `settings.x || 0`. -/
def completeTrip (settings : SystemSettings) (start_fuel : Option ℚ)
    (endFuel : ℚ) (payment_at_end : ℚ) (rental_end_date : Option ℚ)
    (actualReturn : ℚ) : TripCompletion :=
  let fuelPrice := settings.fuel_price_per_liter.getD 0
  let delayFeePerHour := settings.delay_fee_per_hour.getD 0
  let startF := start_fuel.getD 0
  let fuelUsed := startF - endFuel
  let fuelCharge := if 0 < fuelUsed then fuelUsed * fuelPrice else 0
  let delayHours :=
    match rental_end_date with
    | some expectedReturn =>
        if expectedReturn < actualReturn then
          (actualReturn - expectedReturn) / (1000 * 60 * 60)
        else 0
    | none => 0
  let delayFee := delayHours * delayFeePerHour
  { status := "completed"
    end_fuel := endFuel
    payment_at_end := payment_at_end
    fuel_charge := fuelCharge
    delay_fee := delayFee
    delay_hours := delayHours }

/-- C1: on trip completion, `fuelUsed = startFuelLevel - endFuelLevel`
and `fuelCharge = fuelUsed * fuelPricePerLiter` when `fuelUsed > 0`,
while `fuelCharge = 0` whenever the end level is at least the start
level (no charge and no refund); with `startFuel = 45`, `endFuel = 30`
and `fuelPrice = 65` the charge is `975`. -/
theorem fuel_charge_spec (settings : SystemSettings) (startF endF pae : ℚ)
    (red : Option ℚ) (ar : ℚ) :
    (endF < startF →
      (completeTrip settings (some startF) endF pae red ar).fuel_charge
        = (startF - endF) * settings.fuel_price_per_liter.getD 0) ∧
    (startF ≤ endF →
      (completeTrip settings (some startF) endF pae red ar).fuel_charge = 0) ∧
    (completeTrip ⟨some 65, some 0⟩ (some 45) 30 0 none 0).fuel_charge = 975 := by
  refine ⟨fun h => ?_, fun h => ?_, ?_⟩
  · simp only [completeTrip, Option.getD_some]
    rw [if_pos (by linarith)]
  · simp only [completeTrip, Option.getD_some]
    rw [if_neg (by simp; linarith)]
  · norm_num [completeTrip]

/-- C2: on trip completion with an expected-return timestamp,
`delayHours` is the actual-minus-expected difference converted to
fractional hours when the return is late and `0` otherwise, and
`delayFee = delayHours * delayFeePerHourRate`; a return 2.5 hours late
at rate 100 yields `delayFee = 250` and `delayHours = 2.5`, and a
return at or before the expected time yields `delayFee = 0`. -/
theorem delay_fee_spec (settings : SystemSettings) (sf : Option ℚ)
    (endF pae expectedReturn actualReturn : ℚ) :
    ((completeTrip settings sf endF pae (some expectedReturn) actualReturn).delay_fee
      = (completeTrip settings sf endF pae (some expectedReturn) actualReturn).delay_hours
        * settings.delay_fee_per_hour.getD 0) ∧
    (expectedReturn < actualReturn →
      (completeTrip settings sf endF pae (some expectedReturn) actualReturn).delay_hours
        = (actualReturn - expectedReturn) / (1000 * 60 * 60)) ∧
    (actualReturn ≤ expectedReturn →
      (completeTrip settings sf endF pae (some expectedReturn) actualReturn).delay_hours = 0 ∧
      (completeTrip settings sf endF pae (some expectedReturn) actualReturn).delay_fee = 0) ∧
    ((completeTrip ⟨some 0, some 100⟩ (some 0) 0 0 (some 0) 9000000).delay_fee = 250 ∧
     (completeTrip ⟨some 0, some 100⟩ (some 0) 0 0 (some 0) 9000000).delay_hours = 5/2) := by
  refine ⟨rfl, fun h => ?_, fun h => ?_, by norm_num [completeTrip], by norm_num [completeTrip]⟩
  · simp only [completeTrip]
    rw [if_pos h]
  · simp only [completeTrip]
    rw [if_neg (by simpa using h)]
    simp

/-- C10: for a tenant with no stored settings document,
`systemSettingsService.get()` returns the default
`{fuel_price_per_liter: 0, delay_fee_per_hour: 0}` rather than an error
or an empty result, and every settlement computed with those defaults
has `fuelCharge = 0` and `delayFee = 0`. -/
theorem settings_default_spec (s : Session) (store : List (String × SystemSettings))
    (ownerId : String) (how : requireOwnerId s = .ok ownerId)
    (hmiss : store.find? (fun kv => kv.1 == ownerId) = none) :
    systemSettingsGet s store = .ok ⟨some 0, some 0⟩ ∧
    ∀ (sf : Option ℚ) (endF pae : ℚ) (red : Option ℚ) (ar : ℚ),
      (completeTrip ⟨some 0, some 0⟩ sf endF pae red ar).fuel_charge = 0 ∧
      (completeTrip ⟨some 0, some 0⟩ sf endF pae red ar).delay_fee = 0 := by
  constructor
  · simp only [systemSettingsGet, how, bind_ok, hmiss]
  · intro sf endF pae red ar
    constructor
    · simp only [completeTrip, Option.getD_some]
      split <;> simp
    · simp only [completeTrip, Option.getD_some, mul_zero]

/-- A session of an owner with no cached tenant id, used to discharge
the hypotheses of session-dependent theorems at a concrete input. -/
def ownerSession : Session := { currentUser := some "owner-1", cachedOwnerId := none, role := "owner" }

/-- Witness for C10: the owner session and the empty settings store
satisfy the hypotheses, and the conclusion holds there. -/
theorem settings_default_spec_witness :
    systemSettingsGet ownerSession [] = .ok ⟨some 0, some 0⟩ ∧
    ∀ (sf : Option ℚ) (endF pae : ℚ) (red : Option ℚ) (ar : ℚ),
      (completeTrip ⟨some 0, some 0⟩ sf endF pae red ar).fuel_charge = 0 ∧
      (completeTrip ⟨some 0, some 0⟩ sf endF pae red ar).delay_fee = 0 :=
  settings_default_spec ownerSession [] "owner-1" rfl rfl

/-- A `vehicles` document.  Fields the verified operations never
consult (image URL, description, ...) are omitted. -/
structure Vehicle where
  id : String
  make : String
  model : String
  year : Int
  user_id : String
  created_at : Int
deriving Repr, DecidableEq

/-- A `vehicle_variants` document; `available_quantity` and
`total_quantity` may be absent (`adjustQuantity` coalesces them with
`?? 0` and `?? 1` respectively). -/
structure Variant where
  id : String
  vehicle_id : String
  color : String
  available_quantity : Option Int
  total_quantity : Option Int
  user_id : String
deriving Repr, DecidableEq

/-- A `bookings` document, restricted to the fields the verified
operations consult.  `user_id` is the owning tenant id. -/
structure Booking where
  id : String
  user_id : String
  assigned_driver_id : Option String
  status : String
  payment_at_start : Option ℚ
  payment_at_end : Option ℚ
  fuel_charge : Option ℚ
  delay_fee : Option ℚ
  created_at : Int
deriving Repr, DecidableEq

/-- The remote document store: the collections the verified operations
touch, each a list of documents with distinct generated ids. -/
structure DB where
  vehicles : List Vehicle
  vehicle_variants : List Variant
  bookings : List Booking
deriving Repr, DecidableEq

/-- Descending creation order on bookings, the
`orderBy("created_at", "desc")` sort key of `bookingsService`. -/
def bookingCreatedDesc (a b : Booking) : Prop := b.created_at ≤ a.created_at

instance : DecidableRel bookingCreatedDesc :=
  fun a b => inferInstanceAs (Decidable (b.created_at ≤ a.created_at))

/-- Descending creation order on vehicles, the
`orderBy("created_at", "desc")` sort key of `vehiclesService`. -/
def vehicleCreatedDesc (a b : Vehicle) : Prop := b.created_at ≤ a.created_at

instance : DecidableRel vehicleCreatedDesc :=
  fun a b => inferInstanceAs (Decidable (b.created_at ≤ a.created_at))

/-- Embeds `vehiclesService.list`: all vehicles whose `user_id` equals
the effective owner id, newest first. -/
def vehiclesList (s : Session) (db : DB) : Except String (List Vehicle) := do
  let ownerId ← requireOwnerId s
  .ok (List.insertionSort vehicleCreatedDesc
    (db.vehicles.filter (fun v => v.user_id == ownerId)))

/-- Embeds `vehiclesService.add`: spreads the caller's data and stamps
`user_id` with the effective owner id and `created_at`.  The document
id generated by `addDoc` and the server timestamp are the `newId` and
`now` parameters. -/
def vehiclesAdd (s : Session) (db : DB) (data : Vehicle) (newId : String)
    (now : Int) : Except String (DB × String) := do
  let ownerId ← requireOwnerId s
  let v : Vehicle := { data with id := newId, user_id := ownerId, created_at := now }
  .ok ({ db with vehicles := db.vehicles ++ [v] }, newId)

/-- Embeds `vehiclesService.update`: loads the document, rejects a
missing document or a tenant mismatch with one indistinguishable error,
then merges the caller's fields (the merge `{...data}` is the function
`data`; the `updated_at` stamp is not a modelled field). -/
def vehiclesUpdate (s : Session) (db : DB) (id : String)
    (data : Vehicle → Vehicle) : Except String DB := do
  let ownerId ← requireOwnerId s
  match db.vehicles.find? (fun v => v.id == id) with
  | none => .error "Vehicle not found or access denied"
  | some v =>
      if v.user_id ≠ ownerId then .error "Vehicle not found or access denied"
      else .ok { db with
        vehicles := db.vehicles.map (fun w => if w.id == id then data w else w) }

/-- Embeds `vehiclesService.delete`: after the ownership check it
stages, in one `writeBatch`, the deletion of every variant matching
`vehicle_id == id && user_id == ownerId` together with the vehicle
itself.  `batch.commit()` is a remote atomic commit whose outcome is
the `commitOk` parameter: `true` applies every staged delete at once,
`false` applies none of them and raises. -/
def vehiclesDelete (s : Session) (db : DB) (id : String) (commitOk : Bool) :
    Except String DB := do
  let ownerId ← requireOwnerId s
  match db.vehicles.find? (fun v => v.id == id) with
  | none => .error "Vehicle not found or access denied"
  | some v =>
      if v.user_id ≠ ownerId then .error "Vehicle not found or access denied"
      else if commitOk then
        .ok { db with
          vehicles := db.vehicles.filter (fun w => !(w.id == id)),
          vehicle_variants := db.vehicle_variants.filter
            (fun w => !(w.vehicle_id == id && w.user_id == ownerId)) }
      else .error "batch commit failed"

/-- Embeds `vehiclesService.getById`: returns `null` both when the
document is missing and when its tenant differs from the effective
owner id. -/
def vehiclesGetById (s : Session) (db : DB) (id : String) :
    Except String (Option Vehicle) := do
  let ownerId ← requireOwnerId s
  match db.vehicles.find? (fun v => v.id == id) with
  | none => .ok none
  | some v => if v.user_id == ownerId then .ok (some v) else .ok none

/-- Embeds `variantsService.getById`: a bare `getDoc` of the document.
The source performs no session lookup and no tenant check, so the
embedding takes no `Session` — the result does not depend on the
caller. -/
def variantsGetById (db : DB) (id : String) : Except String (Option Variant) :=
  .ok (db.vehicle_variants.find? (fun v => v.id == id))

/-- Embeds `variantsService.adjustQuantity`: reads the variant (failing
with `"Variant not found"` before any session check), verifies tenant
ownership, then writes
`available_quantity = Math.max(0, Math.min(avail + change, total))`
with `avail = available_quantity ?? 0` and `total = total_quantity ?? 1`. -/
def adjustQuantity (s : Session) (db : DB) (variantId : String) (change : Int) :
    Except String DB :=
  match db.vehicle_variants.find? (fun v => v.id == variantId) with
  | none => .error "Variant not found"
  | some v => do
      let ownerId ← requireOwnerId s
      if v.user_id ≠ ownerId then .error "Access denied"
      else
        let avail := v.available_quantity.getD 0 + change
        let total := v.total_quantity.getD 1
        .ok { db with vehicle_variants :=
          db.vehicle_variants.map (fun w =>
            if w.id == variantId then
              { w with available_quantity := some (max 0 (min avail total)) }
            else w) }

/-- Embeds `bookingsService.list`: all bookings of the effective owner,
newest first; when the cached role is `driver` an additional
`assigned_driver_id == requireUserId()` constraint is applied. -/
def bookingsList (s : Session) (db : DB) : Except String (List Booking) := do
  let ownerId ← requireOwnerId s
  if getRoleSync s == "driver" then do
    let uid ← requireUserId s
    .ok (List.insertionSort bookingCreatedDesc (db.bookings.filter
      (fun b => b.assigned_driver_id == some uid && b.user_id == ownerId)))
  else
    .ok (List.insertionSort bookingCreatedDesc
      (db.bookings.filter (fun b => b.user_id == ownerId)))

/-- Embeds `bookingsService.getById`: reads the document first (a
missing document yields `null` with no session check), then returns
`null` on a tenant mismatch, and for a driver caller also on an
assignment mismatch. -/
def bookingsGetById (s : Session) (db : DB) (id : String) :
    Except String (Option Booking) :=
  match db.bookings.find? (fun b => b.id == id) with
  | none => .ok none
  | some b => do
      let ownerId ← requireOwnerId s
      if b.user_id ≠ ownerId then .ok none
      else if getRoleSync s == "driver" then do
        let uid ← requireUserId s
        if b.assigned_driver_id ≠ some uid then .ok none else .ok (some b)
      else .ok (some b)

/-- Embeds the `DriverBalanceScreen` selection of completed bookings. -/
def completedOf (bookings : List Booking) : List Booking :=
  bookings.filter (fun b => b.status == "completed")

/-- Embeds the `DriverBalanceScreen` payments aggregate:
`Σ (Number(payment_at_start) || 0) + (Number(payment_at_end) || 0)`
over the completed bookings, as the source's `reduce`. -/
def paymentsOf (bookings : List Booking) : ℚ :=
  (completedOf bookings).foldl
    (fun sum b => sum + b.payment_at_start.getD 0 + b.payment_at_end.getD 0) 0

/-- Embeds the `DriverBalanceScreen` deductions aggregate:
`Σ (Number(fuel_charge) || 0) + (Number(delay_fee) || 0)` over the
completed bookings. -/
def deductionsOf (bookings : List Booking) : ℚ :=
  (completedOf bookings).foldl
    (fun sum b => sum + b.fuel_charge.getD 0 + b.delay_fee.getD 0) 0

/-- Embeds `netBalance = payments - deductions`. -/
def netBalanceOf (bookings : List Booking) : ℚ :=
  paymentsOf bookings - deductionsOf bookings

/-- C3: `adjustQuantity(variantId, delta)` writes
`available_quantity = clamp(available_quantity + delta, 0, total_quantity)`
(with the source's `?? 0` / `?? 1` defaults for absent fields), so for
any sign and magnitude of `delta` the written variant satisfies
`0 ≤ available_quantity ≤ total_quantity` whenever `total_quantity` is
nonnegative, as every well-formed variant's is. -/
theorem adjustQuantity_clamps (s : Session) (db : DB) (variantId : String)
    (change : Int) (v : Variant)
    (hv : db.vehicle_variants.find? (fun w => w.id == variantId) = some v)
    (ownerId : String) (how : requireOwnerId s = .ok ownerId)
    (hown : v.user_id = ownerId) (db' : DB)
    (h : adjustQuantity s db variantId change = .ok db') :
    ∀ w ∈ db'.vehicle_variants, w.id = variantId →
      w.available_quantity
        = some (max 0 (min (v.available_quantity.getD 0 + change)
            (v.total_quantity.getD 1))) ∧
      (0 ≤ v.total_quantity.getD 1 →
        0 ≤ w.available_quantity.getD 0 ∧
        w.available_quantity.getD 0 ≤ v.total_quantity.getD 1) := by
  simp only [adjustQuantity, hv, how, bind_ok, hown, ne_eq, not_true_eq_false,
    if_false, ite_false, Except.ok.injEq] at h
  subst h
  intro w hw hid
  simp only [List.mem_map] at hw
  obtain ⟨w0, hw0, hweq⟩ := hw
  by_cases hcase : w0.id = variantId
  · simp only [hcase, beq_self_eq_true, if_true] at hweq
    subst hweq
    refine ⟨rfl, fun ht => ?_⟩
    constructor
    · simp only [Option.getD_some]
      exact le_max_left 0 _
    · simp only [Option.getD_some]
      exact max_le ht (min_le_right _ _)
  · rw [if_neg (by simpa using hcase)] at hweq
    subst hweq
    exact absurd hid hcase

/-- A driver session of tenant `T1`, driver id `d1`, with the owner id
cached at login. -/
def driverSession : Session :=
  { currentUser := some "d1", cachedOwnerId := some "T1", role := "driver" }

/-- A variant of tenant `T1` with 1 of 2 units available. -/
def variantOne : Variant :=
  { id := "v1", vehicle_id := "veh1", color := "black",
    available_quantity := some 1, total_quantity := some 2, user_id := "T1" }

/-- A one-variant store for the quantity-adjustment witness. -/
def variantDB : DB :=
  { vehicles := [], vehicle_variants := [variantOne], bookings := [] }

/-- The variant after the `+5` adjustment: availability clamped to the
total of `2`. -/
def adjustedVariant : Variant := { variantOne with available_quantity := some 2 }

/-- The store after adjusting the concrete variant by `+5`. -/
def adjustedVariantDB : DB :=
  { vehicles := [], vehicle_variants := [adjustedVariant], bookings := [] }

/-- Witness for C3: adjusting the concrete variant by `+5` from a
session of its tenant clamps the result into `[0, 2]`. -/
theorem adjustQuantity_clamps_witness :
    adjustedVariant.available_quantity
      = some (max 0 (min (variantOne.available_quantity.getD 0 + 5)
          (variantOne.total_quantity.getD 1))) ∧
    (0 ≤ variantOne.total_quantity.getD 1 →
      0 ≤ adjustedVariant.available_quantity.getD 0 ∧
      adjustedVariant.available_quantity.getD 0 ≤ variantOne.total_quantity.getD 1) :=
  adjustQuantity_clamps driverSession variantDB "v1" 5 variantOne rfl "T1" rfl rfl
    adjustedVariantDB rfl adjustedVariant (List.mem_singleton.mpr rfl) rfl

/-- C4: for a caller whose cached role is `driver`, every booking
returned by `bookingsService.list()` is assigned to that driver and
belongs to the effective tenant; for any other role the result is
exactly the tenant's bookings. -/
theorem bookings_list_role_scope (s : Session) (db : DB) (ownerId : String)
    (how : requireOwnerId s = .ok ownerId) (l : List Booking)
    (h : bookingsList s db = .ok l) :
    (∀ uid, s.role = "driver" → requireUserId s = .ok uid →
      ∀ b ∈ l, b.assigned_driver_id = some uid ∧ b.user_id = ownerId) ∧
    (s.role ≠ "driver" → ∀ b, b ∈ l ↔ b ∈ db.bookings ∧ b.user_id = ownerId) := by
  constructor
  · intro uid hrole huid b hb
    simp only [bookingsList, how, bind_ok, getRoleSync, hrole, beq_self_eq_true,
      if_true, huid, Except.ok.injEq] at h
    subst h
    rw [List.mem_insertionSort] at hb
    simp only [List.mem_filter, Bool.and_eq_true, beq_iff_eq] at hb
    exact ⟨hb.2.1, hb.2.2⟩
  · intro hrole b
    have hne : (getRoleSync s == "driver") = false := by
      simpa [getRoleSync] using hrole
    simp only [bookingsList, how, bind_ok, hne, Bool.false_eq_true, if_false,
      Except.ok.injEq] at h
    subst h
    rw [List.mem_insertionSort]
    simp [List.mem_filter]

/-- A `T1` booking assigned to driver `d1`. -/
def bookingOne : Booking :=
  { id := "b1", user_id := "T1", assigned_driver_id := some "d1",
    status := "confirmed", payment_at_start := none, payment_at_end := none,
    fuel_charge := none, delay_fee := none, created_at := 3 }

/-- Bookings of two tenants and two drivers, for the role-scoping
witness. -/
def mixedBookingsDB : DB :=
  { vehicles := [], vehicle_variants := [],
    bookings :=
      [ bookingOne,
        { id := "b2", user_id := "T1", assigned_driver_id := some "d2",
          status := "pending", payment_at_start := none, payment_at_end := none,
          fuel_charge := none, delay_fee := none, created_at := 2 },
        { id := "b3", user_id := "T2", assigned_driver_id := some "d1",
          status := "pending", payment_at_start := none, payment_at_end := none,
          fuel_charge := none, delay_fee := none, created_at := 1 } ] }

/-- Witness for C4: the concrete driver session over the mixed store
satisfies the hypotheses, and every returned booking is both assigned
to `d1` and owned by `T1`. -/
theorem bookings_list_role_scope_witness :
    (∀ uid, driverSession.role = "driver" → requireUserId driverSession = .ok uid →
      ∀ b ∈ [bookingOne], b.assigned_driver_id = some uid ∧
        b.user_id = "T1") ∧
    (driverSession.role ≠ "driver" →
      ∀ b, b ∈ [bookingOne] ↔
        b ∈ mixedBookingsDB.bookings ∧ b.user_id = "T1") :=
  bookings_list_role_scope driverSession mixedBookingsDB "T1" rfl
    [bookingOne] rfl

/-- Folding a two-part addition equals adding the list sum of the
per-element contributions, relating the source's `reduce` loops to the
specification's big sums. -/
theorem foldl_add_map_sum (f g : Booking → ℚ) (l : List Booking) (a : ℚ) :
    l.foldl (fun sum b => sum + f b + g b) a
      = a + (l.map (fun b => f b + g b)).sum := by
  induction l generalizing a with
  | nil => simp
  | cons b bs ih =>
      simp only [List.foldl_cons, List.map_cons, List.sum_cons, ih]
      ring

/-- C9: the driver-balance aggregation ranges over exactly the bookings
with status `completed`, sums `payment_at_start + payment_at_end` as
payments and `fuel_charge + delay_fee` as deductions, and reports their
difference; the specification's two-booking example yields `2000`. -/
theorem net_balance_spec (bs : List Booking) :
    (∀ b, b ∈ completedOf bs ↔ b ∈ bs ∧ b.status = "completed") ∧
    netBalanceOf bs
      = ((completedOf bs).map
          (fun b => b.payment_at_start.getD 0 + b.payment_at_end.getD 0)).sum
        - ((completedOf bs).map
          (fun b => b.fuel_charge.getD 0 + b.delay_fee.getD 0)).sum ∧
    netBalanceOf
      [ { id := "c1", user_id := "T1", assigned_driver_id := some "d1",
          status := "completed", payment_at_start := some 1000,
          payment_at_end := some 500, fuel_charge := some 200,
          delay_fee := some 0, created_at := 1 },
        { id := "c2", user_id := "T1", assigned_driver_id := some "d1",
          status := "completed", payment_at_start := some 800,
          payment_at_end := some 0, fuel_charge := some 0,
          delay_fee := some 100, created_at := 2 } ] = 2000 := by
  refine ⟨fun b => ?_, ?_,
    by norm_num [netBalanceOf, paymentsOf, deductionsOf, completedOf,
      List.filter, List.foldl]⟩
  · simp [completedOf, List.mem_filter]
  · simp only [netBalanceOf, paymentsOf, deductionsOf, foldl_add_map_sum, zero_add]

/-- C7: deleting a vehicle stages the vehicle and every variant
referencing it in one atomic batch: when the commit succeeds neither
the vehicle nor any referencing variant remains (and nothing else is
touched), and when the commit fails the operation raises and deletes
nothing. -/
theorem vehicle_delete_cascade (s : Session) (db : DB) (id ownerId : String)
    (how : requireOwnerId s = .ok ownerId) (v : Vehicle)
    (hv : db.vehicles.find? (fun w => w.id == id) = some v)
    (hown : v.user_id = ownerId)
    (hvars : ∀ w ∈ db.vehicle_variants, w.vehicle_id = id → w.user_id = ownerId) :
    (∃ db', vehiclesDelete s db id true = .ok db' ∧
      (∀ w ∈ db'.vehicles, w.id ≠ id) ∧
      (∀ w ∈ db'.vehicle_variants, w.vehicle_id ≠ id) ∧
      (∀ w ∈ db.vehicles, w.id ≠ id → w ∈ db'.vehicles) ∧
      (∀ w ∈ db.vehicle_variants, w.vehicle_id ≠ id → w ∈ db'.vehicle_variants) ∧
      db'.bookings = db.bookings) ∧
    vehiclesDelete s db id false = .error "batch commit failed" := by
  have hred : ∀ commitOk : Bool, vehiclesDelete s db id commitOk =
      if commitOk then
        .ok { db with
          vehicles := db.vehicles.filter (fun w => !(w.id == id)),
          vehicle_variants := db.vehicle_variants.filter
            (fun w => !(w.vehicle_id == id && w.user_id == ownerId)) }
      else .error "batch commit failed" := by
    intro commitOk
    simp only [vehiclesDelete, how, bind_ok, hv, hown, ne_eq, not_true_eq_false,
      if_false, ite_false]
  constructor
  · refine ⟨_, hred true, ?_, ?_, ?_, ?_, rfl⟩
    · intro w hw
      simp only [List.mem_filter, Bool.not_eq_true', beq_eq_false_iff_ne,
        ne_eq] at hw
      exact hw.2
    · intro w hw hwid
      simp only [List.mem_filter, Bool.not_eq_true', Bool.and_eq_false_iff,
        beq_eq_false_iff_ne, ne_eq] at hw
      rcases hw.2 with h1 | h2
      · exact h1 hwid
      · exact h2 (hvars w hw.1 hwid)
    · intro w hw hne
      simp only [List.mem_filter, Bool.not_eq_true', beq_eq_false_iff_ne,
        ne_eq]
      exact ⟨hw, hne⟩
    · intro w hw hne
      simp only [List.mem_filter, Bool.not_eq_true', Bool.and_eq_false_iff,
        beq_eq_false_iff_ne, ne_eq]
      exact ⟨hw, Or.inl hne⟩
  · exact hred false

/-- A tenant-`T1` vehicle, for the cascade witness. -/
def cascadeVehicle : Vehicle :=
  { id := "veh1", make := "Toyota", model := "Vios", year := 2020,
    user_id := "T1", created_at := 1 }

/-- A tenant-`T1` vehicle and its two variants, for the cascade
witness. -/
def cascadeDB : DB :=
  { vehicles := [cascadeVehicle],
    vehicle_variants :=
      [ { id := "va", vehicle_id := "veh1", color := "black",
          available_quantity := some 1, total_quantity := some 1, user_id := "T1" },
        { id := "vb", vehicle_id := "veh1", color := "white",
          available_quantity := some 1, total_quantity := some 1, user_id := "T1" } ],
    bookings := [] }

/-- Witness for C7: deleting the concrete vehicle with its two variants
from its tenant's session removes all three on a successful commit and
raises on a failed one. -/
theorem vehicle_delete_cascade_witness :
    (∃ db', vehiclesDelete driverSession cascadeDB "veh1" true = .ok db' ∧
      (∀ w ∈ db'.vehicles, w.id ≠ "veh1") ∧
      (∀ w ∈ db'.vehicle_variants, w.vehicle_id ≠ "veh1") ∧
      (∀ w ∈ cascadeDB.vehicles, w.id ≠ "veh1" → w ∈ db'.vehicles) ∧
      (∀ w ∈ cascadeDB.vehicle_variants, w.vehicle_id ≠ "veh1" →
        w ∈ db'.vehicle_variants) ∧
      db'.bookings = cascadeDB.bookings) ∧
    vehiclesDelete driverSession cascadeDB "veh1" false
      = .error "batch commit failed" :=
  vehicle_delete_cascade driverSession cascadeDB "veh1" "T1" rfl
    cascadeVehicle rfl rfl (by decide)

/-- A session with no authenticated user and the login cache cleared,
the state after logout. -/
def noSession : Session :=
  { currentUser := none, cachedOwnerId := none, role := "owner" }

/-- A variant owned by tenant `T2`, read across tenants in the
counterexamples. -/
def foreignVariant : Variant :=
  { id := "v2", vehicle_id := "veh2", color := "red",
    available_quantity := some 1, total_quantity := some 2, user_id := "T2" }

/-- A store holding only tenant `T2` data. -/
def foreignDB : DB :=
  { vehicles := [], vehicle_variants := [foreignVariant], bookings := [] }

/-- Counterexample to C5: with no authenticated user and a cleared
cache, `variantsService.getById` does not fail — it performs the read
and returns the stored record, because the source (lines 306-309 of
`firebaseService.js`) performs a bare `getDoc` with no session check. -/
theorem variants_getById_no_session_cex :
    requireUserId noSession = .error "User must be logged in" ∧
    requireOwnerId noSession = .error "User must be logged in" ∧
    variantsGetById foreignDB "v2" = .ok (some foreignVariant) :=
  ⟨rfl, rfl, rfl⟩

/-- C5 (amended): with no active session every modelled record-access
operation that consults the tenancy resolver fails with the
authorization error `"User must be logged in"` before touching the
store — unconditionally for `list`, `add`, `update`, `delete` and the
vehicles `getById`, and whenever the addressed document exists for the
bookings `getById` and for `adjustQuantity` (which read the document
before the session check); `variantsService.getById` alone performs
its read without any session check. -/
theorem no_session_access_denied (s : Session) (hu : s.currentUser = none)
    (hc : s.cachedOwnerId = none) :
    (∀ db, vehiclesList s db = .error "User must be logged in") ∧
    (∀ db data newId now, vehiclesAdd s db data newId now
      = .error "User must be logged in") ∧
    (∀ db id data, vehiclesUpdate s db id data = .error "User must be logged in") ∧
    (∀ db id commitOk, vehiclesDelete s db id commitOk
      = .error "User must be logged in") ∧
    (∀ db id, vehiclesGetById s db id = .error "User must be logged in") ∧
    (∀ db, bookingsList s db = .error "User must be logged in") ∧
    (∀ db id b, db.bookings.find? (fun x => x.id == id) = some b →
      bookingsGetById s db id = .error "User must be logged in") ∧
    (∀ db vid change v, db.vehicle_variants.find? (fun x => x.id == vid) = some v →
      adjustQuantity s db vid change = .error "User must be logged in") := by
  have hro : requireOwnerId s = .error "User must be logged in" := by
    simp only [requireOwnerId, requireUserId, hu, hc]
  refine ⟨fun db => ?_, fun db data newId now => ?_, fun db id data => ?_,
    fun db id commitOk => ?_, fun db id => ?_, fun db => ?_,
    fun db id b hb => ?_, fun db vid change v hv => ?_⟩
  · simp only [vehiclesList, hro, bind_error]
  · simp only [vehiclesAdd, hro, bind_error]
  · simp only [vehiclesUpdate, hro, bind_error]
  · simp only [vehiclesDelete, hro, bind_error]
  · simp only [vehiclesGetById, hro, bind_error]
  · simp only [bookingsList, hro, bind_error]
  · simp only [bookingsGetById, hb, hro, bind_error]
  · simp only [adjustQuantity, hv, hro, bind_error]

/-- Witness for C5 (amended): the logged-out session discharges the
hypotheses, and every session-checked operation fails with the
authorization error there. -/
theorem no_session_access_denied_witness :
    (∀ db, vehiclesList noSession db = .error "User must be logged in") ∧
    (∀ db data newId now, vehiclesAdd noSession db data newId now
      = .error "User must be logged in") ∧
    (∀ db id data, vehiclesUpdate noSession db id data
      = .error "User must be logged in") ∧
    (∀ db id commitOk, vehiclesDelete noSession db id commitOk
      = .error "User must be logged in") ∧
    (∀ db id, vehiclesGetById noSession db id = .error "User must be logged in") ∧
    (∀ db, bookingsList noSession db = .error "User must be logged in") ∧
    (∀ db id b, db.bookings.find? (fun x => x.id == id) = some b →
      bookingsGetById noSession db id = .error "User must be logged in") ∧
    (∀ db vid change v, db.vehicle_variants.find? (fun x => x.id == vid) = some v →
      adjustQuantity noSession db vid change = .error "User must be logged in") :=
  no_session_access_denied noSession rfl rfl

/-- An owner session of tenant `T1`. -/
def tenant1Session : Session :=
  { currentUser := some "T1", cachedOwnerId := none, role := "owner" }

/-- Counterexample to C6: a caller whose effective owner id is `T1`
reads tenant `T2`'s variant through `variantsService.getById` and
receives the full record rather than the empty result the claim
requires on a tenant mismatch. -/
theorem variants_getById_cross_tenant_cex :
    requireOwnerId tenant1Session = .ok "T1" ∧
    foreignVariant.user_id = "T2" ∧
    variantsGetById foreignDB "v2" = .ok (some foreignVariant) :=
  ⟨rfl, rfl, rfl⟩

/-- C6 (amended): `getById` for vehicles and bookings returns the
record exactly when its tenant id equals the effective owner id (for a
driver caller on bookings, additionally when it is assigned to the
caller) and returns the empty result `null`, not an error, on a
missing record or on any tenant or assignment mismatch;
`variantsService.getById`, by contrast, returns the stored record with
no tenant check at all. -/
theorem getById_tenant_scope (s : Session) (db : DB) (id ownerId : String)
    (how : requireOwnerId s = .ok ownerId) :
    (db.vehicles.find? (fun w => w.id == id) = none →
      vehiclesGetById s db id = .ok none) ∧
    (∀ v, db.vehicles.find? (fun w => w.id == id) = some v → v.user_id ≠ ownerId →
      vehiclesGetById s db id = .ok none) ∧
    (∀ v, db.vehicles.find? (fun w => w.id == id) = some v → v.user_id = ownerId →
      vehiclesGetById s db id = .ok (some v)) ∧
    (db.bookings.find? (fun w => w.id == id) = none →
      bookingsGetById s db id = .ok none) ∧
    (∀ b, db.bookings.find? (fun w => w.id == id) = some b → b.user_id ≠ ownerId →
      bookingsGetById s db id = .ok none) ∧
    (∀ b uid, db.bookings.find? (fun w => w.id == id) = some b →
      b.user_id = ownerId → s.role = "driver" → requireUserId s = .ok uid →
      b.assigned_driver_id ≠ some uid → bookingsGetById s db id = .ok none) ∧
    (∀ b, db.bookings.find? (fun w => w.id == id) = some b → b.user_id = ownerId →
      s.role ≠ "driver" → bookingsGetById s db id = .ok (some b)) ∧
    (∀ b uid, db.bookings.find? (fun w => w.id == id) = some b →
      b.user_id = ownerId → s.role = "driver" → requireUserId s = .ok uid →
      b.assigned_driver_id = some uid → bookingsGetById s db id = .ok (some b)) ∧
    (∀ v, db.vehicle_variants.find? (fun w => w.id == id) = some v →
      variantsGetById db id = .ok (some v)) := by
  refine ⟨fun h => ?_, fun v hv hne => ?_, fun v hv heq => ?_, fun h => ?_,
    fun b hb hne => ?_, fun b uid hb hbo hrole huid hne => ?_,
    fun b hb hbo hrole => ?_, fun b uid hb hbo hrole huid hassg => ?_,
    fun v hv => ?_⟩
  · simp only [vehiclesGetById, how, bind_ok, h]
  · simp only [vehiclesGetById, how, bind_ok, hv]
    rw [if_neg (by simpa using hne)]
  · simp only [vehiclesGetById, how, bind_ok, hv]
    rw [if_pos (by simpa using heq)]
  · simp only [bookingsGetById, h]
  · simp only [bookingsGetById, hb, how, bind_ok]
    rw [if_pos hne]
  · simp only [bookingsGetById, hb, how, bind_ok]
    rw [if_neg (by simp [hbo]), if_pos (by simpa [getRoleSync] using hrole),
      huid, bind_ok, if_pos hne]
  · simp only [bookingsGetById, hb, how, bind_ok]
    rw [if_neg (by simp [hbo]), if_neg (by simpa [getRoleSync] using hrole)]
  · simp only [bookingsGetById, hb, how, bind_ok]
    rw [if_neg (by simp [hbo]), if_pos (by simpa [getRoleSync] using hrole),
      huid, bind_ok, if_neg (by simp [hassg])]
  · simp only [variantsGetById, hv]

/-- Witness for C6 (amended): at tenant `T1`'s session over the
foreign store the conclusion holds, with the hypotheses discharged
concretely. -/
theorem getById_tenant_scope_witness :
    (foreignDB.vehicles.find? (fun w => w.id == "v2") = none →
      vehiclesGetById tenant1Session foreignDB "v2" = .ok none) ∧
    (∀ v, foreignDB.vehicles.find? (fun w => w.id == "v2") = some v →
      v.user_id ≠ "T1" → vehiclesGetById tenant1Session foreignDB "v2" = .ok none) ∧
    (∀ v, foreignDB.vehicles.find? (fun w => w.id == "v2") = some v →
      v.user_id = "T1" →
      vehiclesGetById tenant1Session foreignDB "v2" = .ok (some v)) ∧
    (foreignDB.bookings.find? (fun w => w.id == "v2") = none →
      bookingsGetById tenant1Session foreignDB "v2" = .ok none) ∧
    (∀ b, foreignDB.bookings.find? (fun w => w.id == "v2") = some b →
      b.user_id ≠ "T1" → bookingsGetById tenant1Session foreignDB "v2" = .ok none) ∧
    (∀ b uid, foreignDB.bookings.find? (fun w => w.id == "v2") = some b →
      b.user_id = "T1" → tenant1Session.role = "driver" →
      requireUserId tenant1Session = .ok uid → b.assigned_driver_id ≠ some uid →
      bookingsGetById tenant1Session foreignDB "v2" = .ok none) ∧
    (∀ b, foreignDB.bookings.find? (fun w => w.id == "v2") = some b →
      b.user_id = "T1" → tenant1Session.role ≠ "driver" →
      bookingsGetById tenant1Session foreignDB "v2" = .ok (some b)) ∧
    (∀ b uid, foreignDB.bookings.find? (fun w => w.id == "v2") = some b →
      b.user_id = "T1" → tenant1Session.role = "driver" →
      requireUserId tenant1Session = .ok uid → b.assigned_driver_id = some uid →
      bookingsGetById tenant1Session foreignDB "v2" = .ok (some b)) ∧
    (∀ v, foreignDB.vehicle_variants.find? (fun w => w.id == "v2") = some v →
      variantsGetById foreignDB "v2" = .ok (some v)) :=
  getById_tenant_scope tenant1Session foreignDB "v2" "T1" rfl

/-- Models JavaScript `String.prototype.trim`: leading and trailing
whitespace removed. -/
def jsTrim (s : String) : String :=
  String.mk (((s.data.dropWhile Char.isWhitespace).reverse.dropWhile
    Char.isWhitespace).reverse)

/-- The nested `booking.vehicles` descriptor read by the email payload
construction. -/
structure BookingVehicleInfo where
  make : Option String
  model : Option String
  year : Option String
deriving Repr, DecidableEq

/-- The booking fields `EmailService.sendStatusUpdateEmail` reads when
building its payload. -/
structure StatusEmailBooking where
  id : String
  customer_email : Option String
  customer_name : Option String
  vehicles : Option BookingVehicleInfo
  variant_color : Option String
  rental_start_date : Option String
  rental_end_date : Option String
  pickup_location : Option String
  total_price : Option ℚ
  decline_reason : Option String
deriving Repr, DecidableEq

/-- The `emailData` payload assembled by
`EmailService.sendStatusUpdateEmail` before the remote call. -/
structure EmailData where
  customer_email : Option String
  customer_name : Option String
  bookingId : String
  vehicleMake : String
  vehicleModel : String
  vehicleYear : String
  variantColor : String
  rental_start_date : Option String
  rental_end_date : Option String
  pickup_location : String
  total_price : ℚ
  newStatus : String
  decline_reason : Option String
deriving Repr, DecidableEq

/-- The observable outcome of `EmailService.sendStatusUpdateEmail` up
to the remote boundary: either the local validation rejects with a
failure result, or the callable cloud function is invoked with the
assembled payload. -/
inductive EmailOutcome where
  | localFailure (error : String)
  | remoteInvoke (payload : EmailData)
deriving Repr, DecidableEq

/-- Embeds `EmailService.sendStatusUpdateEmail` up to the remote call:
the payload is assembled (with `decline_reason` set to
`booking.decline_reason || ""` only when the new status is `declined`,
and `null` otherwise), and when the status is `declined` with a missing
or all-whitespace reason the call returns
`{success: false, error: ...}` before `httpsCallable` is ever
reached. -/
def sendStatusUpdateEmail (booking : StatusEmailBooking) (newStatus : String) :
    EmailOutcome :=
  let emailData : EmailData :=
    { customer_email := booking.customer_email
      customer_name := booking.customer_name
      bookingId := booking.id
      vehicleMake := (booking.vehicles.bind (fun v => v.make)).getD "Vehicle"
      vehicleModel := (booking.vehicles.bind (fun v => v.model)).getD ""
      vehicleYear := (booking.vehicles.bind (fun v => v.year)).getD ""
      variantColor := booking.variant_color.getD ""
      rental_start_date := booking.rental_start_date
      rental_end_date := booking.rental_end_date
      pickup_location := booking.pickup_location.getD ""
      total_price := booking.total_price.getD 0
      newStatus := newStatus
      decline_reason :=
        if newStatus == "declined" then some (booking.decline_reason.getD "")
        else none }
  if newStatus == "declined" &&
      (match emailData.decline_reason with
       | none => true
       | some r => r == "" || jsTrim r == "") then
    .localFailure "Decline reason is required when status is declined"
  else
    .remoteInvoke emailData

/-- C8: a status-update email request with `newStatus = "declined"` and
an absent or empty decline reason is rejected locally with a failure
result, and no remote invocation occurs for it. -/
theorem declined_email_requires_reason (booking : StatusEmailBooking)
    (h : booking.decline_reason = none ∨ booking.decline_reason = some "") :
    sendStatusUpdateEmail booking "declined"
      = .localFailure "Decline reason is required when status is declined" ∧
    ∀ payload, sendStatusUpdateEmail booking "declined" ≠ .remoteInvoke payload := by
  have hreason : booking.decline_reason.getD "" = "" := by
    rcases h with h | h <;> simp [h]
  have hmain : sendStatusUpdateEmail booking "declined"
      = .localFailure "Decline reason is required when status is declined" := by
    simp only [sendStatusUpdateEmail, hreason]
    rfl
  exact ⟨hmain, fun payload => by rw [hmain]; exact fun hcontra => by cases hcontra⟩

/-- A booking with no decline reason, for the declined-email witness. -/
def reasonlessBooking : StatusEmailBooking :=
  { id := "b9", customer_email := some "c@example.com",
    customer_name := some "Cust", vehicles := none, variant_color := none,
    rental_start_date := none, rental_end_date := none,
    pickup_location := none, total_price := some 100, decline_reason := none }

/-- Witness for C8: the concrete reasonless booking is rejected locally
and never reaches the remote invocation. -/
theorem declined_email_requires_reason_witness :
    sendStatusUpdateEmail reasonlessBooking "declined"
      = .localFailure "Decline reason is required when status is declined" ∧
    ∀ payload, sendStatusUpdateEmail reasonlessBooking "declined"
      ≠ .remoteInvoke payload :=
  declined_email_requires_reason reasonlessBooking (Or.inl rfl)

end RentalDen
